import Mathlib

/-!
# Verification of the BME680 MQTT subscriber's message-dispatch core

Shallow embedding of `src/tools/mqtt_subscriber.py`.  The embedded part is
the `on_message` callback (the Message Dispatcher of the spec) together with
the topic table `TOPICS` (the Topic Registry).  The transport library
(`paho.mqtt`), `argparse` glue and the connect/disconnect callbacks carry no
decision logic and are outside the embedding.

Modelling conventions:
* JSON values produced by `json.loads` are modelled by `Val` (numbers as
  exact rationals — JSON numeric literals are decimal, so every literal is
  representable; the CPython `int`/`float` distinction is collapsed, a
  number with denominator 1 prints as an integer).
* The composite `json.loads(msg.payload.decode())` library call is modelled
  by its three possible outcomes (`DecodeOutcome`): the bytes are not valid
  text (`UnicodeDecodeError`), the text is not valid JSON
  (`json.JSONDecodeError`), or a decoded JSON document.
* Python expressions that can raise (`format` with a `.Nf` spec, `<=` on
  mixed types, `.get` on a non-dict) return `Except String α` carrying the
  exception's message text.
* Each `print(...)` inside the handler contributes one line; `on_message`
  returns the list of lines printed for one delivery (the Report).  The
  `try/except` of lines 62–115 is `runPrints`: lines printed before a raise
  remain, the first raise is converted to the final processing-error line.
-/

/-- A JSON value as decoded by `json.loads` (scalar payload fields). -/
inductive Val where
  | num (q : Rat)
  | str (s : String)
  | bool (b : Bool)
  | null
deriving DecidableEq, Repr

/-- A decoded JSON document: either a key/value object (a Python `dict`,
keys in document order) or a non-object top-level value. -/
inductive Json where
  | obj (fields : List (String × Val))
  | val (v : Val)
deriving DecidableEq, Repr

/-- Outcome of `msg.payload.decode()` followed by `json.loads`:
`notText` models a `UnicodeDecodeError` (carrying the exception text),
`notJson` models a `json.JSONDecodeError` (carrying the decoded text),
`json` carries the decoded text and the parsed document. -/
inductive DecodeOutcome where
  | notText (err : String)
  | notJson (text : String)
  | json (text : String) (doc : Json)
deriving DecidableEq, Repr

/-- Dict lookup, last occurrence wins (as when `json.loads` builds a dict). -/
def pyGet (fields : List (String × Val)) (k : String) : Option Val :=
  fields.foldl (fun acc kv => if kv.1 = k then some kv.2 else acc) none

/-- Python `d.get(k, default)`. -/
def pyGetD (fields : List (String × Val)) (k : String) (d : Val) : Val :=
  (pyGet fields k).getD d

/-- The Python type name of a value (for `AttributeError` texts). -/
def pyTypeName : Val → String
  | Val.num q => if q.den = 1 then "int" else "float"
  | Val.str _ => "str"
  | Val.bool _ => "bool"
  | Val.null => "NoneType"

/-- `payload.get(k, default)` where `payload` is the decoded document:
on a dict it never raises; on a non-dict it raises `AttributeError`. -/
def getE : Json → String → Val → Except String Val
  | Json.obj fields, k, d => Except.ok (pyGetD fields k d)
  | Json.val v, _, _ =>
      Except.error ("\x27" ++ pyTypeName v ++ "\x27 object has no attribute \x27get\x27")

/-- Round the fraction `p / den` (with `den > 0`) to the nearest integer,
ties to even (the rounding CPython's fixed-point `format` applies). -/
def roundHalfEvenInt (p : Int) (den : Int) : Int :=
  let f : Int := Int.fdiv p den
  let twice : Int := 2 * (p - f * den)
  if twice < den then f
  else if twice > den then f + 1
  else if f % 2 = 0 then f else f + 1

/-- Left-pad a digit string with zeros to length `n`. -/
def padZeros (s : String) (n : Nat) : String :=
  if s.length ≥ n then s
  else String.mk (List.replicate (n - s.length) '0') ++ s

/-- `format(q, '.df')`: fixed-point rendering with `d` fractional digits. -/
def formatFixed (q : Rat) (d : Nat) : String :=
  let base : Nat := 10 ^ d
  let m : Int := roundHalfEvenInt (q.num * (base : Int)) (q.den : Int)
  let sign : String := if m < 0 then "-" else ""
  let a : Nat := m.natAbs
  if d = 0 then sign ++ toString (a / base)
  else sign ++ toString (a / base) ++ "." ++ padZeros (toString (a % base)) d

/-- Fuelled count of decimal digits needed to clear a denominator
(used to approximate CPython's shortest float repr for JSON decimals). -/
def decDigitsAux : Nat → Nat → Nat
  | 0, _ => 0
  | fuel + 1, d => if d = 1 then 0 else 1 + decDigitsAux fuel (d / Nat.gcd d 10)

/-- `str`/`repr` of a JSON number: integers without a point, other decimal
literals with their exact fractional digits. -/
def numRepr (q : Rat) : String :=
  if q.den = 1 then toString q.num else formatFixed q (decDigitsAux 30 q.den)

/-- Python `str()` of a decoded JSON scalar, as interpolated by an f-string. -/
def pyStr : Val → String
  | Val.num q => numRepr q
  | Val.str s => s
  | Val.bool b => if b then "True" else "False"
  | Val.null => "None"

/-- Python `format(v, '.df')`: numbers (and bools, which are ints) format;
a str raises `ValueError`, `None` raises `TypeError`. -/
def pyFormatF (v : Val) (d : Nat) : Except String String :=
  match v with
  | Val.num q => Except.ok (formatFixed q d)
  | Val.bool b => Except.ok (formatFixed (if b then 1 else 0) d)
  | Val.str _ =>
      Except.error "Unknown format code \x27f\x27 for object of type \x27str\x27"
  | Val.null =>
      Except.error "unsupported format string passed to NoneType.__format__"

/-- Python `v <= bound` against an int literal: numbers and bools compare;
a str or `None` raises `TypeError`. -/
def pyLE (v : Val) (bound : Rat) : Except String Bool :=
  match v with
  | Val.num q => Except.ok (decide (q ≤ bound))
  | Val.bool b => Except.ok (decide ((if b then (1 : Rat) else 0) ≤ bound))
  | Val.str _ =>
      Except.error "\x27<=\x27 not supported between instances of \x27str\x27 and \x27int\x27"
  | Val.null =>
      Except.error "\x27<=\x27 not supported between instances of \x27NoneType\x27 and \x27int\x27"

/-- Python `v == "online"`: equal only when `v` is that very string
(`==` across types is `False`, never an error). -/
def pyEqStr (v : Val) (t : String) : Bool :=
  match v with
  | Val.str s => decide (s = t)
  | _ => false

/-- Lines 81-88: the IAQ severity indicator chosen by the chained
`if iaq_score <= 50 / <= 100 / <= 150 / else` comparisons; a comparison on
a non-numeric score raises. -/
def pyIndicator (v : Val) : Except String String :=
  (pyLE v 50).bind (fun b1 =>
    if b1 then Except.ok "🟢"
    else (pyLE v 100).bind (fun b2 =>
      if b2 then Except.ok "🟡"
      else (pyLE v 150).bind (fun b3 =>
        if b3 then Except.ok "🟠" else Except.ok "🔴")))

/-- Lowercase hex rendering of `n < 16`. -/
def hexDigit (n : Nat) : Char :=
  if n < 10 then Char.ofNat (48 + n) else Char.ofNat (87 + n)

/-- Four lowercase hex digits. -/
def hex4 (n : Nat) : String :=
  String.mk [hexDigit (n / 4096 % 16), hexDigit (n / 256 % 16),
             hexDigit (n / 16 % 16), hexDigit (n % 16)]

/-- `json.dumps` escaping of one character (default `ensure_ascii=True`:
non-ASCII becomes `\uXXXX`, astral characters a surrogate pair). -/
def jsonEscapeChar (c : Char) : String :=
  if c = '"' then "\\\""
  else if c = '\\' then "\\\\"
  else if c = '\n' then "\\n"
  else if c = '\t' then "\\t"
  else if c = '\r' then "\\r"
  else if c = '\x08' then "\\b"
  else if c = '\x0c' then "\\f"
  else if c.toNat < 32 then "\\u" ++ hex4 c.toNat
  else if c.toNat < 127 then String.mk [c]
  else if c.toNat < 65536 then "\\u" ++ hex4 c.toNat
  else
    "\\u" ++ hex4 (55296 + (c.toNat - 65536) / 1024) ++
      "\\u" ++ hex4 (56320 + (c.toNat - 65536) % 1024)

/-- `json.dumps` escaping of a string body. -/
def jsonEscape (s : String) : String :=
  String.join (s.toList.map jsonEscapeChar)

/-- `json.dumps` of a scalar. -/
def dumpVal : Val → String
  | Val.num q => numRepr q
  | Val.str s => "\"" ++ jsonEscape s ++ "\""
  | Val.bool b => if b then "true" else "false"
  | Val.null => "null"

/-- `json.dumps(payload, indent=2)` as called on line 110. -/
def jsonDumps : Json → String
  | Json.val v => dumpVal v
  | Json.obj [] => "\x7b\x7d"
  | Json.obj fields =>
      "\x7b\n" ++
        String.intercalate ",\n"
          (fields.map (fun kv => "  \"" ++ jsonEscape kv.1 ++ "\": " ++ dumpVal kv.2)) ++
      "\n\x7d"

/-- The Topic Registry (lines 27-32): subscribed topic names with their
QoS delivery level (0 = at most once). -/
def TOPICS : List (String × Nat) :=
  [("sensor/bme680/data", 0),
   ("sensor/bme680/iaq", 0),
   ("sensor/bme680/status", 0),
   ("sensor/bme680/alert", 0)]

/-- The registered topic names. -/
def registeredTopics : List String := TOPICS.map Prod.fst

/-- Semantic category of a topic (the spec's tagged-variant view of the
`if/elif` chain at lines 69/76/97/104/109). -/
inductive Category where
  | Data
  | AirQuality
  | Status
  | Alert
  | Unknown
deriving DecidableEq, Repr

/-- Classify a topic string exactly as the dispatcher's `if/elif` chain
compares it (exact string match, in source order). -/
def categoryOf (topic : String) : Category :=
  if topic = "sensor/bme680/data" then Category.Data
  else if topic = "sensor/bme680/iaq" then Category.AirQuality
  else if topic = "sensor/bme680/status" then Category.Status
  else if topic = "sensor/bme680/alert" then Category.Alert
  else Category.Unknown

/-- Lines 70-74: the five Data-report lines of the `sensor/bme680/data`
branch, each as the fallible computation of one printed line. -/
def dataSteps (j : Json) : List (Except String String) :=
  [(getE j "temperature" (Val.str "N/A")).bind (fun v =>
      (pyFormatF v 2).map (fun s => "🌡️  Temperature  : " ++ s ++ " °C")),
   (getE j "humidity" (Val.str "N/A")).bind (fun v =>
      (pyFormatF v 2).map (fun s => "💧 Humidity     : " ++ s ++ " %")),
   (getE j "pressure" (Val.str "N/A")).bind (fun v =>
      (pyFormatF v 2).map (fun s => "🔵 Pressure     : " ++ s ++ " hPa")),
   (getE j "gas_resistance" (Val.str "N/A")).bind (fun v =>
      (pyFormatF v 0).map (fun s => "💨 Gas Resist.  : " ++ s ++ " Ohms")),
   (getE j "gas_valid" (Val.str "N/A")).map (fun v =>
      "✓  Gas Valid    : " ++ pyStr v)]

/-- Lines 77-95: the six AirQuality-report lines of the
`sensor/bme680/iaq` branch.  The first line bundles, in source order, the
`iaq_score` and `iaq_text` lookups (77-78), the indicator comparisons
(81-88) and the `.1f` score formatting of line 90. -/
def iaqSteps (j : Json) : List (Except String String) :=
  [(getE j "iaq_score" (Val.num 0)).bind (fun score =>
      (getE j "iaq_text" (Val.str "Unknown")).bind (fun txt =>
        (pyIndicator score).bind (fun ind =>
          (pyFormatF score 1).map (fun s =>
            ind ++ " IAQ Score    : " ++ s ++ " [" ++ pyStr txt ++ "]")))),
   (getE j "iaq_level" (Val.str "N/A")).map (fun v =>
      "🔢 IAQ Level    : " ++ pyStr v),
   (getE j "accuracy" (Val.str "N/A")).map (fun v =>
      "🎯 Accuracy     : " ++ pyStr v),
   (getE j "co2_equivalent" (Val.str "N/A")).bind (fun v =>
      (pyFormatF v 0).map (fun s => "🌫️  CO2 Equiv.   : " ++ s ++ " ppm")),
   (getE j "voc_equivalent" (Val.str "N/A")).bind (fun v =>
      (pyFormatF v 2).map (fun s => "🧪 VOC Equiv.   : " ++ s ++ " ppm")),
   (getE j "is_calibrated" (Val.str "N/A")).map (fun v =>
      "✓  Calibrated   : " ++ pyStr v)]

/-- Lines 98-102: the two Status-report lines of the `sensor/bme680/status`
branch.  The first line bundles, in source order, the `status` and
`client_id` lookups (98-99) and the icon choice (100). -/
def statusSteps (j : Json) : List (Except String String) :=
  [(getE j "status" (Val.str "unknown")).bind (fun status =>
      (getE j "client_id" (Val.str "unknown")).map (fun _ =>
        (if pyEqStr status "online" then "🟢" else "🔴") ++
          " Status: " ++ pyStr status)),
   (getE j "client_id" (Val.str "unknown")).map (fun cid =>
      "📟 Client ID: " ++ pyStr cid)]

/-- Lines 105-107: the three Alert-report lines of the
`sensor/bme680/alert` branch. -/
def alertSteps (j : Json) : List (Except String String) :=
  [(getE j "type" (Val.str "N/A")).map (fun v =>
      "⚠️  Alert Type  : " ++ pyStr v),
   (getE j "message" (Val.str "N/A")).map (fun v =>
      "📢 Message     : " ++ pyStr v),
   (getE j "client_id" (Val.str "N/A")).map (fun v =>
      "📟 Client ID   : " ++ pyStr v)]

/-- The `if/elif/else` chain of lines 69-110: the branch's line
computations for a decoded document, selected by topic category. -/
def branchSteps (topic : String) (j : Json) : List (Except String String) :=
  match categoryOf topic with
  | Category.Data => dataSteps j
  | Category.AirQuality => iaqSteps j
  | Category.Status => statusSteps j
  | Category.Alert => alertSteps j
  | Category.Unknown => [Except.ok ("Payload: " ++ jsonDumps j)]

/-- Execute the prints of the `try` body under the `except Exception`
handler of lines 114-115: lines printed before a raise remain, the first
raise becomes the final processing-error line, later prints never run. -/
def runPrints : List (Except String String) → List String
  | [] => []
  | Except.ok s :: rest => s :: runPrints rest
  | Except.error e :: _ => ["Error processing message: " ++ e]

/-- The lines the `try` body printed before its first raise. -/
def okPrefix : List (Except String String) → List String
  | [] => []
  | Except.ok s :: rest => s :: okPrefix rest
  | Except.error _ :: _ => []

/-- The first exception the `try` body raises, if any. -/
def firstError : List (Except String String) → Option String
  | [] => none
  | Except.ok _ :: rest => firstError rest
  | Except.error e :: _ => some e

/-- The 60-character horizontal rule of lines 65 and 67. -/
def hrule : String := String.mk (List.replicate 60 '─')

/-- Lines 65-67: the message header printed after a successful decode. -/
def headerLines (ts topic : String) : List String :=
  ["\n" ++ hrule, "📨 [" ++ ts ++ "] Topic: " ++ topic, hrule]

/-- Lines 57-115: the `on_message` callback (the spec's `dispatch`), as the
list of lines it prints for one delivered message.  `ts` is the
`datetime.now()` timestamp string of line 59. -/
def on_message (ts topic : String) (pd : DecodeOutcome) : List String :=
  match pd with
  | DecodeOutcome.notText err => ["Error processing message: " ++ err]
  | DecodeOutcome.notJson text => ["Raw message: " ++ text]
  | DecodeOutcome.json _ j => headerLines ts topic ++ runPrints (branchSteps topic j)

/-- One delivery event handed to the callback by the transport. -/
structure InboundMessage where
  topic : String
  receivedAt : String
  payload : DecodeOutcome
deriving DecidableEq

/-- Dispatch of one inbound message. -/
def dispatchMsg (m : InboundMessage) : List String :=
  on_message m.receivedAt m.topic m.payload

/-- The receive loop: each delivery is one independent synchronous call of
the callback (the module holds no mutable state the callback writes). -/
def processSequence (msgs : List InboundMessage) : List (List String) :=
  msgs.map dispatchMsg

/-! ## Helper lemmas -/

@[simp] theorem exceptBind_ok {α β ε : Type} (a : α) (f : α → Except ε β) :
    (Except.ok a : Except ε α).bind f = f a := rfl

@[simp] theorem exceptBind_error {α β ε : Type} (e : ε) (f : α → Except ε β) :
    (Except.error e : Except ε α).bind f = Except.error e := rfl

@[simp] theorem exceptMap_ok {α β ε : Type} (f : α → β) (a : α) :
    (Except.ok a : Except ε α).map f = Except.ok (f a) := rfl

@[simp] theorem exceptMap_error {α β ε : Type} (f : α → β) (e : ε) :
    (Except.error e : Except ε α).map f = Except.error e := rfl

@[simp] theorem getE_obj (fields : List (String × Val)) (k : String) (d : Val) :
    getE (Json.obj fields) k d = Except.ok (pyGetD fields k d) := rfl

@[simp] theorem categoryOf_data : categoryOf "sensor/bme680/data" = Category.Data := rfl

@[simp] theorem categoryOf_iaq : categoryOf "sensor/bme680/iaq" = Category.AirQuality := rfl

@[simp] theorem categoryOf_status : categoryOf "sensor/bme680/status" = Category.Status := rfl

@[simp] theorem categoryOf_alert : categoryOf "sensor/bme680/alert" = Category.Alert := rfl

theorem runPrints_of_firstError (l : List (Except String String)) (e : String)
    (h : firstError l = some e) :
    runPrints l = okPrefix l ++ ["Error processing message: " ++ e] := by
  induction l with
  | nil => simp [firstError] at h
  | cons hd tl ih =>
    cases hd with
    | ok s =>
      simp only [firstError] at h
      simp [runPrints, okPrefix, ih h]
    | error e2 =>
      simp only [firstError, Option.some.injEq] at h
      subst h
      simp [runPrints, okPrefix]

theorem runPrints_of_noError (l : List (Except String String))
    (h : firstError l = none) :
    runPrints l = okPrefix l := by
  induction l with
  | nil => rfl
  | cons hd tl ih =>
    cases hd with
    | ok s =>
      simp only [firstError] at h
      simp [runPrints, okPrefix, ih h]
    | error e2 => simp [firstError] at h

theorem processSequence_last (pre : List InboundMessage) (m : InboundMessage) :
    (processSequence (pre ++ [m])).getLast? = some (dispatchMsg m) := by
  simp [processSequence]

/-! ## Claims -/

/-- C1: contrary to the claim, a recognized numeric Data field that is
absent does NOT render as an N/A line.  The `.get(field, "N/A")` default
shows the intended graceful degradation, but the `.2f`/`.0f` format spec
applied to that default string raises `ValueError`, so the report for a
Data payload missing `humidity` is the temperature line followed by a
single processing-error line — the humidity/pressure/gas lines never
appear (only the unformatted `gas_valid` field could ever show `N/A`). -/
theorem C1_missing_field_error_report :
    on_message "2026-01-01 12:00:00" "sensor/bme680/data"
      (DecodeOutcome.json "x"
        (Json.obj [("temperature", Val.num 25), ("pressure", Val.num 1013),
                   ("gas_resistance", Val.num 120000), ("gas_valid", Val.bool true)])) =
    headerLines "2026-01-01 12:00:00" "sensor/bme680/data" ++
      ["🌡️  Temperature  : 25.00 °C",
       "Error processing message: Unknown format code \x27f\x27 for object of type \x27str\x27"] := rfl

/-- C2 counterexample: for an AirQuality payload with every field missing,
the rendered report shows the missing `iaq_score` as `0.0` — not as the
claimed "N/A" marker — and the missing `co2_equivalent` aborts the report
with a processing-error line instead of rendering "N/A". -/
theorem C2_counterexample :
    on_message "2026-01-01 12:00:00" "sensor/bme680/iaq"
      (DecodeOutcome.json "x" (Json.obj [])) =
    headerLines "2026-01-01 12:00:00" "sensor/bme680/iaq" ++
      ["🟢 IAQ Score    : 0.0 [Unknown]",
       "🔢 IAQ Level    : N/A",
       "🎯 Accuracy     : N/A",
       "Error processing message: Unknown format code \x27f\x27 for object of type \x27str\x27"] := rfl

/-- C2 (amended): a missing `iaq_score` defaults to 0, which selects the
best tier (green indicator) and renders as `0.0` in the report text; a
missing `co2_equivalent` gets the string default "N/A", whose `.0f`
formatting raises, so the report is truncated by a processing-error line
rather than showing "N/A" for that numeric field. -/
theorem C2_amended (fields : List (String × Val))
    (h0 : pyGet fields "iaq_score" = none)
    (hc : pyGet fields "co2_equivalent" = none) :
    (iaqSteps (Json.obj fields)).head? =
      some (Except.ok ("🟢 IAQ Score    : 0.0 [" ++
        pyStr (pyGetD fields "iaq_text" (Val.str "Unknown")) ++ "]")) ∧
    firstError (iaqSteps (Json.obj fields)) =
      some "Unknown format code \x27f\x27 for object of type \x27str\x27" := by
  have hs : pyGetD fields "iaq_score" (Val.num 0) = Val.num 0 := by
    simp [pyGetD, h0]
  have hc' : pyGetD fields "co2_equivalent" (Val.str "N/A") = Val.str "N/A" := by
    simp [pyGetD, hc]
  have hi : pyIndicator (Val.num 0) = Except.ok "🟢" := rfl
  have hf : pyFormatF (Val.num 0) 1 = Except.ok "0.0" := rfl
  constructor
  · simp [iaqSteps, hs, hi, hf]
  · simp [iaqSteps, firstError, hs, hc', hi, hf, pyFormatF]

/-- C2 witness: the amended statement applied to the empty payload. -/
theorem C2_amended_witness :
    pyGet [] "iaq_score" = none ∧ pyGet [] "co2_equivalent" = none ∧
    ((iaqSteps (Json.obj [])).head? =
      some (Except.ok ("🟢 IAQ Score    : 0.0 [" ++
        pyStr (pyGetD [] "iaq_text" (Val.str "Unknown")) ++ "]")) ∧
    firstError (iaqSteps (Json.obj [])) =
      some "Unknown format code \x27f\x27 for object of type \x27str\x27") :=
  ⟨rfl, rfl, C2_amended [] rfl rfl⟩

/-- The severity tier the spec assigns to an index score: inclusive
thresholds 50 / 100 / 150 (stated from the spec, to be compared with the
code's indicator chain). -/
def specTier (q : Rat) : Nat :=
  if q ≤ 50 then 1 else if q ≤ 100 then 2 else if q ≤ 150 then 3 else 4

/-- The indicator glyph the source prints for each severity tier. -/
def indicatorOfTier : Nat → String
  | 1 => "🟢"
  | 2 => "🟡"
  | 3 => "🟠"
  | _ => "🔴"

/-- C3: for every numeric index score the code's chained `<=` comparisons
select exactly the spec's inclusive tier (score ≤ 50 → tier 1,
≤ 100 → tier 2, ≤ 150 → tier 3, otherwise tier 4), and at the boundary
scores 50, 51, 100, 101, 150, 151 the tiers are 1, 2, 2, 3, 3, 4. -/
theorem C3_tier_thresholds :
    (∀ q : Rat, pyIndicator (Val.num q) = Except.ok (indicatorOfTier (specTier q))) ∧
    specTier 50 = 1 ∧ specTier 51 = 2 ∧ specTier 100 = 2 ∧
    specTier 101 = 3 ∧ specTier 150 = 3 ∧ specTier 151 = 4 := by
  refine ⟨fun q => ?_, by decide, by decide, by decide, by decide, by decide, by decide⟩
  by_cases h1 : q ≤ 50
  · simp [pyIndicator, pyLE, specTier, indicatorOfTier, h1]
  · by_cases h2 : q ≤ 100
    · simp [pyIndicator, pyLE, specTier, indicatorOfTier, h1, h2]
    · by_cases h3 : q ≤ 150
      · simp [pyIndicator, pyLE, specTier, indicatorOfTier, h1, h2, h3]
      · simp [pyIndicator, pyLE, specTier, indicatorOfTier, h1, h2, h3]

/-- C4 counterexample: a Data payload whose `humidity` field holds a
non-numeric value.  The resulting report is NOT exactly one
processing-error line: the temperature line, printed before the formatting
exception, remains, so the branch output has two lines. -/
theorem C4_counterexample :
    on_message "2026-01-01 12:00:00" "sensor/bme680/data"
      (DecodeOutcome.json "x"
        (Json.obj [("temperature", Val.num 25), ("humidity", Val.str "wet")])) =
      headerLines "2026-01-01 12:00:00" "sensor/bme680/data" ++
        ["🌡️  Temperature  : 25.00 °C",
         "Error processing message: Unknown format code \x27f\x27 for object of type \x27str\x27"] ∧
    (runPrints (dataSteps
      (Json.obj [("temperature", Val.num 25), ("humidity", Val.str "wet")]))).length = 2 :=
  ⟨rfl, rfl⟩

/-- C4 (amended): any exception during field extraction or formatting is
caught and converted into a single trailing processing-error line carrying
the error description; the lines already rendered before the failure (and
the header) remain, and nothing propagates to the caller. -/
theorem C4_amended (ts text topic : String) (j : Json) (e : String)
    (h : firstError (branchSteps topic j) = some e) :
    on_message ts topic (DecodeOutcome.json text j) =
      headerLines ts topic ++ okPrefix (branchSteps topic j) ++
        ["Error processing message: " ++ e] := by
  simp [on_message, runPrints_of_firstError _ _ h]

/-- C4 witness: the amended statement at a Data payload whose first
failure is the formatting of the missing `temperature` field. -/
theorem C4_amended_witness :
    firstError (branchSteps "sensor/bme680/data" (Json.obj [])) =
      some "Unknown format code \x27f\x27 for object of type \x27str\x27" ∧
    on_message "T" "sensor/bme680/data" (DecodeOutcome.json "x" (Json.obj [])) =
      headerLines "T" "sensor/bme680/data" ++
        okPrefix (branchSteps "sensor/bme680/data" (Json.obj [])) ++
        ["Error processing message: " ++
          "Unknown format code \x27f\x27 for object of type \x27str\x27"] :=
  ⟨rfl, C4_amended "T" "x" "sensor/bme680/data" (Json.obj []) _ rfl⟩

/-- C5: a payload that decodes as text but is not valid JSON never makes
the dispatcher throw; the report is the decoded raw text (behind the
`Raw message:` label), for every topic and every decoded text. -/
theorem C5_invalid_payload_raw_text (ts topic text : String) :
    on_message ts topic (DecodeOutcome.notJson text) = ["Raw message: " ++ text] := rfl

/-- C6: no error originating inside the dispatcher escapes it, for any
topic and any payload-decode outcome: an undecodable byte payload and any
field-extraction or formatting exception are converted into report
content (a processing-error line), a non-JSON text payload becomes the
raw-text report, and an exception-free branch just renders its lines. -/
theorem C6_no_error_escapes :
    (∀ ts topic err, on_message ts topic (DecodeOutcome.notText err) =
        ["Error processing message: " ++ err]) ∧
    (∀ ts topic text, on_message ts topic (DecodeOutcome.notJson text) =
        ["Raw message: " ++ text]) ∧
    (∀ ts text topic j e, firstError (branchSteps topic j) = some e →
        on_message ts topic (DecodeOutcome.json text j) =
          headerLines ts topic ++ okPrefix (branchSteps topic j) ++
            ["Error processing message: " ++ e]) ∧
    (∀ ts text topic j, firstError (branchSteps topic j) = none →
        on_message ts topic (DecodeOutcome.json text j) =
          headerLines ts topic ++ okPrefix (branchSteps topic j)) := by
  refine ⟨fun ts topic err => rfl, fun ts topic text => rfl,
    fun ts text topic j e h => ?_, fun ts text topic j h => ?_⟩
  · simp [on_message, runPrints_of_firstError _ _ h]
  · simp [on_message, runPrints_of_noError _ h]

/-- C6 witness: the conversion clauses at concrete inputs — a Data payload
whose formatting raises, and an Alert payload that renders cleanly. -/
theorem C6_no_error_escapes_witness :
    firstError (branchSteps "sensor/bme680/data" (Json.obj [])) =
      some "Unknown format code \x27f\x27 for object of type \x27str\x27" ∧
    on_message "T" "sensor/bme680/data" (DecodeOutcome.json "x" (Json.obj [])) =
      headerLines "T" "sensor/bme680/data" ++
        okPrefix (branchSteps "sensor/bme680/data" (Json.obj [])) ++
        ["Error processing message: " ++
          "Unknown format code \x27f\x27 for object of type \x27str\x27"] ∧
    firstError (branchSteps "sensor/bme680/alert" (Json.obj [])) = none ∧
    on_message "T" "sensor/bme680/alert" (DecodeOutcome.json "x" (Json.obj [])) =
      headerLines "T" "sensor/bme680/alert" ++
        okPrefix (branchSteps "sensor/bme680/alert" (Json.obj [])) :=
  ⟨rfl, C6_no_error_escapes.2.2.1 "T" "x" "sensor/bme680/data" (Json.obj []) _ rfl,
   rfl, C6_no_error_escapes.2.2.2 "T" "x" "sensor/bme680/alert" (Json.obj []) rfl⟩

/-- C7: topic classification is total — every topic string outside the
four registered topics classifies as Unknown — and the dispatcher then
applies the fallback formatter, whose report is the decoded document
re-serialized by the pretty-printing `json.dumps` with 2-space indent. -/
theorem C7_unknown_topic_fallback (topic : String)
    (h : topic ∉ registeredTopics) :
    categoryOf topic = Category.Unknown ∧
    ∀ ts text j, on_message ts topic (DecodeOutcome.json text j) =
      headerLines ts topic ++ ["Payload: " ++ jsonDumps j] := by
  rw [show registeredTopics =
        ["sensor/bme680/data", "sensor/bme680/iaq",
         "sensor/bme680/status", "sensor/bme680/alert"] from rfl] at h
  simp only [List.mem_cons, List.not_mem_nil, or_false, not_or] at h
  obtain ⟨h1, h2, h3, h4⟩ := h
  have hcat : categoryOf topic = Category.Unknown := by
    simp [categoryOf, h1, h2, h3, h4]
  exact ⟨hcat, fun ts text j => by simp [on_message, branchSteps, hcat, runPrints]⟩

/-- C7 witness: the unregistered topic `other/topic` with a one-field
document. -/
theorem C7_unknown_topic_fallback_witness :
    "other/topic" ∉ registeredTopics ∧
    categoryOf "other/topic" = Category.Unknown ∧
    on_message "T" "other/topic"
      (DecodeOutcome.json "x" (Json.obj [("a", Val.num 1)])) =
      headerLines "T" "other/topic" ++ ["Payload: \x7b\n  \"a\": 1\n\x7d"] :=
  ⟨by decide, (C7_unknown_topic_fallback "other/topic" (by decide)).1,
   (C7_unknown_topic_fallback "other/topic" (by decide)).2 "T" "x"
     (Json.obj [("a", Val.num 1)])⟩

/-- C8: for every Status-topic document, a `status` string equal to
"online" selects the positive marker and any other string the negative
one; in particular the payload with status "online" and client id
"esp32-01" yields the positive marker and the literal client identifier. -/
theorem C8_status_marker :
    (∀ ts text fields s,
       pyGetD fields "status" (Val.str "unknown") = Val.str s →
       on_message ts "sensor/bme680/status"
           (DecodeOutcome.json text (Json.obj fields)) =
         headerLines ts "sensor/bme680/status" ++
           [(if s = "online" then "🟢" else "🔴") ++ " Status: " ++ s,
            "📟 Client ID: " ++ pyStr (pyGetD fields "client_id" (Val.str "unknown"))]) ∧
    on_message "2026-01-01 12:00:00" "sensor/bme680/status"
      (DecodeOutcome.json "x"
        (Json.obj [("status", Val.str "online"), ("client_id", Val.str "esp32-01")])) =
      headerLines "2026-01-01 12:00:00" "sensor/bme680/status" ++
        ["🟢 Status: online", "📟 Client ID: esp32-01"] := by
  refine ⟨fun ts text fields s h => ?_, rfl⟩
  simp [on_message, branchSteps, statusSteps, runPrints, h, pyEqStr, pyStr]

/-- C8 witness: the marker clause at a payload whose status is the
non-"online" string "offline" (negative marker). -/
theorem C8_status_marker_witness :
    pyGetD [("status", Val.str "offline")] "status" (Val.str "unknown") =
      Val.str "offline" ∧
    on_message "T" "sensor/bme680/status"
      (DecodeOutcome.json "x" (Json.obj [("status", Val.str "offline")])) =
      headerLines "T" "sensor/bme680/status" ++
        [(if ("offline" : String) = "online" then "🟢" else "🔴") ++
           " Status: " ++ "offline",
         "📟 Client ID: " ++
           pyStr (pyGetD [("status", Val.str "offline")] "client_id"
             (Val.str "unknown"))] :=
  ⟨rfl, C8_status_marker.1 "T" "x" [("status", Val.str "offline")] "offline" rfl⟩

/-- C9: dispatch is stateless and deterministic across calls — the report
the receive loop produces for a message is a function of that message's
(topic, payload, timestamp) alone: it is unchanged under any replacement
of the messages processed before it, and the report at every position of a
processed sequence equals the dispatch of the message at that position. -/
theorem C9_stateless_deterministic :
    (∀ (pre₁ pre₂ : List InboundMessage) (m : InboundMessage),
       (processSequence (pre₁ ++ [m])).getLast? =
         (processSequence (pre₂ ++ [m])).getLast?) ∧
    (∀ (msgs : List InboundMessage) (i : Nat),
       (processSequence msgs)[i]? = (msgs[i]?).map dispatchMsg) := by
  refine ⟨fun p1 p2 m => ?_, fun msgs i => ?_⟩
  · rw [processSequence_last, processSequence_last]
  · simp [processSequence]

/-- C10: a Status-topic document lacking the `status` key renders the
literal default "unknown" for status (not the "N/A" marker of the other
formatters) and that defaulted status selects the negative marker; one
lacking the `client_id` key renders "unknown" for the client identifier
while the status line is whatever the present status yields; and the
Status branch never raises on a document, whichever keys are missing. -/
theorem C10_status_defaults :
    (∀ ts text fields,
       pyGet fields "status" = none →
       on_message ts "sensor/bme680/status"
           (DecodeOutcome.json text (Json.obj fields)) =
         headerLines ts "sensor/bme680/status" ++
           ["🔴 Status: unknown",
            "📟 Client ID: " ++ pyStr (pyGetD fields "client_id" (Val.str "unknown"))]) ∧
    (∀ ts text fields,
       pyGet fields "client_id" = none →
       on_message ts "sensor/bme680/status"
           (DecodeOutcome.json text (Json.obj fields)) =
         headerLines ts "sensor/bme680/status" ++
           [(if pyEqStr (pyGetD fields "status" (Val.str "unknown")) "online"
               then "🟢" else "🔴") ++ " Status: " ++
              pyStr (pyGetD fields "status" (Val.str "unknown")),
            "📟 Client ID: unknown"]) ∧
    (∀ fields, firstError (statusSteps (Json.obj fields)) = none) := by
  refine ⟨fun ts text fields h1 => ?_, fun ts text fields h2 => ?_, fun fields => ?_⟩
  · have hs : pyGetD fields "status" (Val.str "unknown") = Val.str "unknown" := by
      simp [pyGetD, h1]
    simp [on_message, branchSteps, statusSteps, runPrints, hs, pyEqStr, pyStr]
  · have hc : pyGetD fields "client_id" (Val.str "unknown") = Val.str "unknown" := by
      simp [pyGetD, h2]
    simp [on_message, branchSteps, statusSteps, runPrints, hc, pyStr]
  · simp [statusSteps, firstError]

/-- C10 witness: the singly-missing cases — a payload with only a
`client_id` (status missing) and a payload with only a `status`
(client id missing). -/
theorem C10_status_defaults_witness :
    pyGet [("client_id", Val.str "esp32-01")] "status" = none ∧
    on_message "T" "sensor/bme680/status"
      (DecodeOutcome.json "x" (Json.obj [("client_id", Val.str "esp32-01")])) =
      headerLines "T" "sensor/bme680/status" ++
        ["🔴 Status: unknown",
         "📟 Client ID: " ++
           pyStr (pyGetD [("client_id", Val.str "esp32-01")] "client_id"
             (Val.str "unknown"))] ∧
    pyGet [("status", Val.str "online")] "client_id" = none ∧
    on_message "T" "sensor/bme680/status"
      (DecodeOutcome.json "x" (Json.obj [("status", Val.str "online")])) =
      headerLines "T" "sensor/bme680/status" ++
        [(if pyEqStr (pyGetD [("status", Val.str "online")] "status"
              (Val.str "unknown")) "online" then "🟢" else "🔴") ++
           " Status: " ++
           pyStr (pyGetD [("status", Val.str "online")] "status" (Val.str "unknown")),
         "📟 Client ID: unknown"] :=
  ⟨rfl, C10_status_defaults.1 "T" "x" [("client_id", Val.str "esp32-01")] rfl,
   rfl, C10_status_defaults.2.1 "T" "x" [("status", Val.str "online")] rfl⟩
